import Mathlib

/-!
Verification development for the chat backend of this repository
(`backend/app`): the streaming send-message pipeline, the blocking
send-message use case and its persistence model, the agent error
classification, the storage retry wrapper, the pagination validation in the
chat router, and the search/trends capability adapters.

Each definition is a shallow embedding of the Python function named in its
doc comment. Machine integers are `Int`/`Nat`; Python exceptions become
`Except`/sum types; the Supabase store becomes an explicit in-memory state.
-/

namespace Chatbot

/-! ## String helpers mirroring Python primitives -/

/-- Python `sub in s` test on strings: `charsStart s sub` is
`s` begins with `sub`, on character lists. -/
def charsStart : List Char → List Char → Bool
  | _, [] => true
  | [], _ :: _ => false
  | c :: cs, d :: ds => c == d && charsStart cs ds

/-- Python `sub in s` containment on character lists. -/
def charsContain : List Char → List Char → Bool
  | [], sub => sub.isEmpty
  | c :: cs, sub => charsStart (c :: cs) sub || charsContain cs sub

/-- Python `sub in s` substring containment (for non-empty `sub`). -/
def strContains (s sub : String) : Bool :=
  charsContain s.data sub.data

/-- Python `s.strip()`: drop leading and trailing whitespace. -/
def pyStrip (s : String) : String :=
  String.mk
    (((s.data.dropWhile Char.isWhitespace).reverse.dropWhile
      Char.isWhitespace).reverse)

/-- Python `s.lower()`. -/
def pyLower (s : String) : String :=
  String.mk (s.data.map Char.toLower)

/-- Python `"".join(parts)`. -/
def strConcat : List String → String
  | [] => ""
  | s :: rest => s ++ strConcat rest

theorem strConcat_append (l : List String) (s : String) :
    strConcat (l ++ [s]) = strConcat l ++ s := by
  induction l with
  | nil => simp [strConcat]
  | cons a l ih =>
      show a ++ strConcat (l ++ [s]) = a ++ strConcat l ++ s
      rw [ih, String.append_assoc]

/-! ## Stream event model

`chat_service.send_message_stream` (backend/app/services/chat_service.py,
lines 216-263) consumes the agent's event stream and re-emits the stable
external event vocabulary. We model the agent stream as a list of events
optionally followed by an exception (`failed = true` means the
`async for` loop raised after yielding exactly the listed events). -/

/-- Events yielded by `stream_agent_async` to the orchestrator. -/
inductive AgentEvent
  | token (content : String)
  | toolStart (tool : String)
deriving DecidableEq, Repr

/-- External events emitted by `send_message_stream`; the `done` event is
projected to the `content` field of the message object it carries. -/
inductive StreamEvent
  | chunk (content : String)
  | toolStart (tool : String)
  | done (content : String)
deriving DecidableEq, Repr

/-- Loop state of `send_message_stream`: `full_content_parts`, `tools_used`,
and the events emitted so far. -/
structure StreamAcc where
  parts : List String
  toolsUsed : List String
  emitted : List StreamEvent
deriving DecidableEq, Repr

/-- One iteration of the `async for` loop in `send_message_stream`
(chat_service.py lines 219-229): non-empty token text is appended to
`full_content_parts` and re-emitted as a `chunk`; `tool_start` is always
re-emitted, with the (non-empty, fresh) name recorded in `tools_used`. -/
def streamStep (acc : StreamAcc) (e : AgentEvent) : StreamAcc :=
  match e with
  | .token text =>
      if text ≠ "" then
        { acc with parts := acc.parts ++ [text],
                   emitted := acc.emitted ++ [.chunk text] }
      else acc
  | .toolStart tool =>
      let tu :=
        if tool ≠ "" ∧ tool ∉ acc.toolsUsed then acc.toolsUsed ++ [tool]
        else acc.toolsUsed
      { acc with toolsUsed := tu, emitted := acc.emitted ++ [.toolStart tool] }

/-- Fallback sentence installed by the `except` clause of
`send_message_stream` (chat_service.py lines 230-233). -/
def streamFallback : String :=
  "Something went wrong while answering. Please try again."

/-- `send_message_stream` after the user message is stored: fold the agent
events, apply the exception fallback when the stream raised, strip the
accumulated text, substitute `"(No response)"` when it is empty, and emit
the terminal `done` event carrying the persisted content
(chat_service.py lines 216-263). -/
def sendMessageStreamEvents (events : List AgentEvent) (failed : Bool) :
    List StreamEvent :=
  let acc := events.foldl streamStep ⟨[], [], []⟩
  let parts := if failed then [streamFallback] else acc.parts
  let emitted :=
    if failed then acc.emitted ++ [.chunk streamFallback] else acc.emitted
  let assistantContent := pyStrip (strConcat parts)
  let finalContent :=
    if assistantContent = "" then "(No response)" else assistantContent
  emitted ++ [.done finalContent]

/-- Contents of the `chunk` events of an external event list. -/
def chunkContents : List StreamEvent → List String
  | [] => []
  | .chunk c :: rest => c :: chunkContents rest
  | _ :: rest => chunkContents rest

/-- Content of the terminal `done` event, when present. -/
def doneContent (events : List StreamEvent) : Option String :=
  match events.getLast? with
  | some (.done c) => some c
  | _ => none

theorem chunkContents_append (a b : List StreamEvent) :
    chunkContents (a ++ b) = chunkContents a ++ chunkContents b := by
  induction a with
  | nil => rfl
  | cons e rest ih => cases e <;> simp [chunkContents, ih]

/-- Invariant of the streaming loop: the concatenation of emitted chunk
contents equals the accumulated `full_content_parts`. -/
theorem streamStep_parts_eq_chunks (events : List AgentEvent) (acc : StreamAcc)
    (h : strConcat (chunkContents acc.emitted) = strConcat acc.parts) :
    strConcat (chunkContents (events.foldl streamStep acc).emitted) =
      strConcat (events.foldl streamStep acc).parts := by
  induction events generalizing acc with
  | nil => exact h
  | cons e rest ih =>
      refine ih _ ?_
      cases e with
      | token text =>
          by_cases ht : text = ""
          · simp [streamStep, ht, h]
          · simp only [streamStep, if_pos (by simpa using ht)]
            simpa [chunkContents_append, strConcat_append, chunkContents]
              using congrArg (· ++ text) h
      | toolStart tool =>
          simpa [streamStep, chunkContents_append, chunkContents] using h

/-- Every chunk the loop emits is non-empty, preserved by each step. -/
theorem streamStep_chunks_nonempty (events : List AgentEvent) (acc : StreamAcc)
    (h : ∀ c ∈ chunkContents acc.emitted, c ≠ "") :
    ∀ c ∈ chunkContents (events.foldl streamStep acc).emitted, c ≠ "" := by
  induction events generalizing acc with
  | nil => exact h
  | cons e rest ih =>
      refine ih _ ?_
      cases e with
      | token text =>
          by_cases ht : text = ""
          · simpa [streamStep, ht] using h
          · intro c hc
            simp only [streamStep, if_pos (by simpa using ht),
              chunkContents_append, chunkContents, List.mem_append] at hc
            rcases hc with hc | hc
            · exact h c hc
            · simp only [List.mem_cons, List.not_mem_nil, or_false] at hc
              subst hc; exact ht
      | toolStart tool =>
          intro c hc
          simp only [streamStep, chunkContents_append, chunkContents,
            List.append_nil] at hc
          exact h c hc

/-! ## Persistence model

An explicit in-memory state standing for the Supabase tables scoped to one
authenticated user (all reads in `conversations.py`/`messages.py` are
filtered to that user's rows). Messages carry their insertion order, which
stands for the `timestamp` ordering used by the queries. -/

/-- A row of the `conversations` table (projected to the fields the
orchestrator uses: id and title). -/
structure Conv where
  id : Nat
  title : Option String
deriving DecidableEq, Repr

/-- A row of the `messages` table (projected to conversation id, role and
content; insertion order of `Db.msgs` stands for the timestamp order). -/
structure StoredMsg where
  conversationId : Nat
  role : String
  content : String
deriving DecidableEq, Repr

/-- The user-scoped store: conversation rows, message rows in timestamp
order, and the next fresh conversation id. -/
structure Db where
  convs : List Conv
  msgs : List StoredMsg
  nextId : Nat
deriving DecidableEq, Repr

/-- `Conversation.create` (conversations.py lines 17-38): insert a row with
the given (absent) title; the store assigns a fresh id. -/
def convCreate (db : Db) : Db × Conv :=
  let c : Conv := ⟨db.nextId, none⟩
  ({ db with convs := db.convs ++ [c], nextId := db.nextId + 1 }, c)

/-- `Conversation.get_by_id` (conversations.py lines 40-62): the user-scoped
row with this id, if any. -/
def convGetById (db : Db) (conversationId : Nat) : Option Conv :=
  db.convs.find? (fun c => c.id == conversationId)

/-- `Conversation.update` with a title (conversations.py lines 92-121):
set the title on the row with this id. -/
def convUpdateTitle (db : Db) (conversationId : Nat) (title : String) : Db :=
  { db with
    convs := db.convs.map (fun c =>
      if c.id == conversationId then { c with title := some title } else c) }

/-- `Message.create` (messages.py lines 17-53): append a message row. -/
def msgCreate (db : Db) (conversationId : Nat) (role content : String) :
    Db × StoredMsg :=
  let m : StoredMsg := ⟨conversationId, role, content⟩
  ({ db with msgs := db.msgs ++ [m] }, m)

/-- `Message.get_by_conversation_id` (messages.py lines 55-90): the
conversation's messages ordered oldest first (timestamp ascending), with
`offset` skipped and at most `limit` returned. -/
def msgsByConversation (db : Db) (conversationId : Nat)
    (limit offset : Nat) : List StoredMsg :=
  (((db.msgs.filter (fun m => m.conversationId == conversationId)).drop
    offset).take limit)

/-- `Message.get_conversation_history_for_agent` (messages.py lines
223-254): the oldest-first window of at most `maxMessages` messages,
projected to `(role, content)` pairs. -/
def historyForAgent (db : Db) (conversationId : Nat) (maxMessages : Nat) :
    List (String × String) :=
  (msgsByConversation db conversationId maxMessages 0).map
    (fun m => (m.role, m.content))

/-- `DEFAULT_AGENT_HISTORY_LIMIT` (chat_service.py line 59). -/
def DEFAULT_AGENT_HISTORY_LIMIT : Nat := 20

/-- The conversation title derived from the first message
(chat_service.py line 157): `content[:200] + ("..." if len(content) > 200
else "")`. -/
def firstMessageTitle (content : String) : String :=
  String.mk (content.data.take 200) ++
    (if 200 < content.data.length then "..." else "")

/-- Result of `send_message` (chat_service.py lines 160-164). -/
structure SendResult where
  conversationId : Nat
  message : StoredMsg
  conversationCreated : Bool
deriving DecidableEq, Repr

/-- `chat_service.send_message` (chat_service.py lines 74-164). The agent
(`invoke_agent_async`) is passed in as a function from the user message and
history window to the reply string; Python `raise ValueError` becomes
`Except.error`. The in-memory store always succeeds, so the
`if not user_msg`-style branches for a failing insert do not arise. -/
def sendMessage (agent : String → List (String × String) → String)
    (db : Db) (accessToken content : String)
    (conversationId : Option Nat) : Except String (Db × SendResult) :=
  if accessToken = "" then .error "Access token is required for RLS"
  else if pyStrip content = "" then .error "Message content is required"
  else
    let resolved : Except String (Db × Nat × Bool) :=
      match conversationId with
      | some cid =>
          match convGetById db cid with
          | none => .error "Conversation not found or access denied"
          | some conv => .ok (db, conv.id, false)
      | none =>
          let (db1, conv) := convCreate db
          .ok (db1, conv.id, true)
    match resolved with
    | .error e => .error e
    | .ok (db1, convId, created) =>
        let (db2, _userMsg) := msgCreate db1 convId "user" (pyStrip content)
        let history := historyForAgent db2 convId DEFAULT_AGENT_HISTORY_LIMIT
        let assistantContent := agent (pyStrip content) history
        let (db3, assistantMsg) := msgCreate db2 convId "assistant" assistantContent
        let db4 :=
          if created then
            convUpdateTitle db3 convId (firstMessageTitle (pyStrip content))
          else db3
        .ok (db4, ⟨convId, assistantMsg, created⟩)

/-- The assistant message content carried in a `send_message` result. -/
def sentAssistantContent (r : Except String (Db × SendResult)) :
    Option String :=
  match r with
  | .ok (_, res) => some res.message.content
  | .error _ => none

/-! ## Agent runtime: failure classification and streaming translation

From `backend/app/services/agent/agent_service.py`. -/

/-- The fixed user-facing sentence for rate/quota exhaustion
(agent_service.py lines 308, 406, 424). -/
def agentBusyMessage : String :=
  "Service is temporarily busy. Please try again in a moment."

/-- The fixed user-facing sentence for timeouts (agent_service.py
line 305). -/
def agentTimeoutMessage : String :=
  "The request took too long. Please try a shorter question or try again later."

/-- The fixed generic user-facing sentence (agent_service.py lines 309,
408, 426). -/
def agentGenericMessage : String :=
  "Something went wrong while answering. Please try again."

/-- Failure classification of `invoke_agent` (agent_service.py lines
300-309): lowercase the exception text; timeout/deadline first, then
rate/quota/429, else generic. -/
def invokeAgentFailureMessage (errMsg : String) : String :=
  let msg := pyLower errMsg
  if strContains msg "timeout" || strContains msg "deadline" then
    agentTimeoutMessage
  else if strContains msg "rate" || strContains msg "quota" ||
      strContains msg "429" then
    agentBusyMessage
  else agentGenericMessage

/-- Failure classification of both `except` blocks of `stream_agent_async`
(agent_service.py lines 402-408 and 420-426): lowercase the exception
text; rate/quota/429 only, else generic. -/
def streamAgentFailureToken (errMsg : String) : String :=
  let msg := pyLower errMsg
  if strContains msg "rate" || strContains msg "quota" ||
      strContains msg "429" then
    agentBusyMessage
  else agentGenericMessage

/-- One element of a LangChain chunk content list (`_extract_text`,
agent_service.py lines 325-345): a part dict with a `text` field, a plain
string, or anything else (skipped). -/
inductive ChunkPart
  | textPart (text : String)
  | strPart (s : String)
  | otherPart
deriving DecidableEq, Repr

/-- The `content` field of a streamed LLM chunk: a plain string or a list
of parts (agent_service.py lines 325-345). -/
inductive ChunkContent
  | str (s : String)
  | parts (l : List ChunkPart)
deriving DecidableEq, Repr

/-- Text contributed by one part in `_extract_text`: a dict part
contributes its `text` field (appended only when non-empty, which leaves
the concatenation unchanged), a plain string is appended as is, anything
else is skipped. -/
def chunkPartText : ChunkPart → String
  | .textPart t => t
  | .strPart s => s
  | .otherPart => ""

/-- `_extract_text` (agent_service.py lines 325-345). -/
def extractText : ChunkContent → String
  | .str s => s
  | .parts l => strConcat (l.map chunkPartText)

/-- A streamed LLM chunk as inspected by `stream_agent_async`:
whether `chunk.tool_call_chunks` is non-empty, and its `content`. -/
structure ModelChunk where
  toolCallChunks : Bool
  content : ChunkContent
deriving DecidableEq, Repr

/-- Events of `agent.astream_events(..., version="v2")` as inspected by
`stream_agent_async` (agent_service.py lines 377-401): tool starts,
chat-model stream events (whose `data.chunk` may be absent), and any other
event kind (ignored). -/
inductive ProviderEvent
  | onToolStart (name : String)
  | onChatModelStream (chunk : Option ModelChunk)
  | otherEvent
deriving DecidableEq, Repr

/-- The executor branch of `stream_agent_async` (agent_service.py lines
372-401) without a raised exception: forward tool starts with a non-empty
name, skip tool-call chunks and absent chunks, and yield non-empty
extracted text as token events. -/
def streamAgentExecEvents (events : List ProviderEvent) : List AgentEvent :=
  events.foldl
    (fun out e =>
      match e with
      | .onToolStart name =>
          if name ≠ "" then out ++ [.toolStart name] else out
      | .onChatModelStream chunk =>
          match chunk with
          | none => out
          | some c =>
              if c.toolCallChunks then out
              else
                let token := extractText c.content
                if token ≠ "" then out ++ [.token token] else out
      | .otherEvent => out)
    []

/-- The executor branch of `stream_agent_async` including the `except`
clause (agent_service.py lines 376-409): when the event loop raises after
the listed events, one final classified token is yielded. -/
def streamAgentExecRun (events : List ProviderEvent)
    (failure : Option String) : List AgentEvent :=
  match failure with
  | none => streamAgentExecEvents events
  | some errMsg =>
      streamAgentExecEvents events ++ [.token (streamAgentFailureToken errMsg)]

/-- Contents of the token events of an agent event list. -/
def tokenContents : List AgentEvent → List String
  | [] => []
  | .token c :: rest => c :: tokenContents rest
  | _ :: rest => tokenContents rest

/-! ## Storage retry wrapper

`_is_connection_error` / `_with_retry_on_disconnect`
(chat_service.py lines 26-56). -/

/-- The exception raised by a storage call, as classified by
`_is_connection_error`: the recognized httpx/httpcore connection error
classes, an `OSError` with a message, an application-level API error
(e.g. a PostgREST 4xx), or anything else. -/
inductive DbFault
  | httpxRemoteProtocol
  | httpxConnect
  | httpxConnectTimeout
  | httpcoreRemoteProtocol
  | osError (msg : String)
  | apiError (status : Nat) (msg : String)
  | other (msg : String)
deriving DecidableEq, Repr

/-- `_is_connection_error` (chat_service.py lines 26-39): the httpx and
httpcore connection error classes are transient; an `OSError` is transient
when its lowercased text mentions "disconnected"; everything else is not. -/
def isConnectionError : DbFault → Bool
  | .httpxRemoteProtocol => true
  | .httpxConnect => true
  | .httpxConnectTimeout => true
  | .httpcoreRemoteProtocol => true
  | .osError msg => strContains (pyLower msg) "disconnected"
  | .apiError _ _ => false
  | .other _ => false

/-- Outcome of one attempt of the wrapped storage call. -/
inductive CallOutcome (T : Type)
  | ok (t : T)
  | raises (f : DbFault)
deriving DecidableEq, Repr

/-- Result of `_with_retry_on_disconnect` together with the number of
0.3-second delays slept. -/
structure RetryTrace (T : Type) where
  result : CallOutcome T
  sleeps : Nat
deriving DecidableEq, Repr

/-- `_with_retry_on_disconnect` with the default `max_attempts = 2`
(chat_service.py lines 42-56): return the first attempt's value; on a
classified connection error sleep once and return whatever the second
attempt does (value or raise); re-raise any other first-attempt fault
immediately. -/
def withRetryOnDisconnect {T : Type} (first second : CallOutcome T) :
    RetryTrace T :=
  match first with
  | .ok t => ⟨.ok t, 0⟩
  | .raises f =>
      if isConnectionError f then
        match second with
        | .ok t => ⟨.ok t, 1⟩
        | .raises f2 => ⟨.raises f2, 1⟩
      else ⟨.raises f, 0⟩

/-! ## Chat router pagination validation

`list_conversations` / `get_messages` (backend/app/routers/chat.py,
lines 135-211). A handler either fails before touching storage
(`RouteError`) or returns the storage query it then issues (`PageQuery`),
so a `RouteError` result means no storage access happened. -/

/-- Failures raised by the handlers before any storage access. -/
inductive RouteError
  | badRequest (detail : String)
  | unauthorized
deriving DecidableEq, Repr

/-- The pagination window a handler passes to the storage layer. -/
structure PageQuery where
  limit : Int
  offset : Int
deriving DecidableEq, Repr

/-- `list_conversations` (routers/chat.py lines 135-166): reject
`limit ∉ [1, 100]`, then `offset < 0`, then a missing token, before the
storage call. -/
def listConversationsRoute (limit offset : Int) (token : String) :
    Except RouteError PageQuery :=
  if limit < 1 ∨ limit > 100 then
    .error (.badRequest "limit must be between 1 and 100")
  else if offset < 0 then
    .error (.badRequest "offset must be non-negative")
  else if token = "" then .error .unauthorized
  else .ok ⟨limit, offset⟩

/-- `get_messages` (routers/chat.py lines 169-211): reject
`limit ∉ [1, 200]`, then `offset < 0`, then a missing token, before the
storage call. -/
def getMessagesRoute (limit offset : Int) (token : String) :
    Except RouteError PageQuery :=
  if limit < 1 ∨ limit > 200 then
    .error (.badRequest "limit must be between 1 and 200")
  else if offset < 0 then
    .error (.badRequest "offset must be non-negative")
  else if token = "" then .error .unauthorized
  else .ok ⟨limit, offset⟩

/-! ## Search adapter

`search_tavily` (backend/app/services/tools/tavily.py lines 86-157) and the
agent-facing wrapper `_tavily_invoke` / `_format_tavily_result`
(agent_service.py lines 34-50 and 71-76). The remote SDK call is an oracle
from the request actually sent to its outcome; a raised exception carries
the exception text. -/

/-- Python `sep.join(parts)`. -/
def strJoinSep (sep : String) : List String → String
  | [] => ""
  | [s] => s
  | s :: rest => s ++ sep ++ strJoinSep sep rest

/-- The Tavily configuration fields `search_tavily` reads
(core/config.py lines 34-37), plus whether the SDK import succeeds. -/
structure TavilySettings where
  apiKey : String
  maxResults : Int
  searchDepth : String
  sdkAvailable : Bool
deriving DecidableEq, Repr

/-- A raw Tavily result item, projected to the fields `_normalize_result`
reads (`score` is dropped: it is a float never used by the adapter
wrapper). `none` stands for a missing or falsy field. -/
structure TavilyItem where
  title : Option String
  url : Option String
  content : Option String
deriving DecidableEq, Repr

/-- A raw Tavily API response: `results` is `none` when missing or not a
list, `answer` is `none` when missing or not a string. -/
structure TavilyRaw where
  results : Option (List TavilyItem)
  answer : Option String
deriving DecidableEq, Repr

/-- The arguments `search_tavily` passes to `client.search`
(tavily.py lines 134-140). -/
structure TavilyRequest where
  query : String
  maxResults : Int
  searchDepth : String
  includeAnswer : Bool
deriving DecidableEq, Repr

/-- Outcome of the `client.search` call: an exception with its text, or a
returned response (`none` for a falsy `raw`). -/
inductive TavilyOutcome
  | raises (msg : String)
  | returns (raw : Option TavilyRaw)
deriving DecidableEq, Repr

/-- `_normalize_result` (tavily.py lines 34-41), minus the float score. -/
structure NormResult where
  title : String
  url : String
  content : String
deriving DecidableEq, Repr

/-- The structured payload `search_tavily` returns (tavily.py
lines 44-70). -/
structure TavilyPayload where
  query : String
  results : List NormResult
  answer : Option String
  error : Option String
deriving DecidableEq, Repr

/-- `_build_error_payload` (tavily.py lines 63-70). -/
def buildErrorPayload (query message : String) : TavilyPayload :=
  ⟨query, [], none, some message⟩

/-- `_normalize_result` (tavily.py lines 34-41): each field is the item
field when present and truthy, else `""`. -/
def normalizeResult (item : TavilyItem) : NormResult :=
  ⟨item.title.getD "", item.url.getD "", item.content.getD ""⟩

/-- `_build_success_payload` (tavily.py lines 44-60): normalize the first
`max_results` items (for the non-negative counts the configuration
supplies). -/
def buildSuccessPayload (query : String) (raw : TavilyRaw)
    (maxResults : Int) : TavilyPayload :=
  ⟨query, ((raw.results.getD []).take maxResults.toNat).map normalizeResult,
    raw.answer, none⟩

/-- The `max_results` value `search_tavily` sends to the remote call
(tavily.py line 137): the caller-supplied value, defaulted from the
configuration when absent, clamped into `[1, 20]`. -/
def tavilySentMaxResults (st : TavilySettings) (maxResults : Option Int) :
    Int :=
  min (max 1 (maxResults.getD st.maxResults)) 20

/-- The `search_depth` value `search_tavily` sends to the remote call
(tavily.py lines 121 and 132): the caller value when truthy, else the
configured default, restricted to the allow-list with fallback
`"basic"`. -/
def tavilySentDepth (st : TavilySettings) (searchDepth : Option String) :
    String :=
  let depth :=
    match searchDepth with
    | some d => if d = "" then st.searchDepth else d
    | none => st.searchDepth
  if depth = "basic" ∨ depth = "advanced" ∨ depth = "fast" ∨
      depth = "ultra-fast" then depth
  else "basic"

/-- `search_tavily` (tavily.py lines 86-157): validate the query and the
configuration, default the caller-absent arguments, restrict the depth to
the allow-list, clamp `max_results` into `[1, 20]` for the remote call,
and classify any exception of the remote call into a fixed short error
payload. -/
def searchTavily (st : TavilySettings) (query : String)
    (maxResults : Option Int) (searchDepth : Option String)
    (includeAnswer : Bool) (remote : TavilyRequest → TavilyOutcome) :
    TavilyPayload :=
  if pyStrip query = "" then
    buildErrorPayload query "Search query cannot be empty."
  else if pyStrip st.apiKey = "" then
    buildErrorPayload query
      "Web search is not configured. Please set TAVILY_API_KEY."
  else
    let maxR := maxResults.getD st.maxResults
    if ¬st.sdkAvailable then
      buildErrorPayload query "Web search dependency is not available."
    else
      let req : TavilyRequest :=
        ⟨pyStrip query, tavilySentMaxResults st maxResults,
         tavilySentDepth st searchDepth, includeAnswer⟩
      match remote req with
      | .raises msg =>
          let m := pyLower msg
          if strContains m "api_key" || strContains m "auth" ||
              strContains msg "401" then
            buildErrorPayload query
              "Web search authentication failed. Check TAVILY_API_KEY."
          else if strContains m "timeout" || strContains m "timed out" then
            buildErrorPayload query "Web search timed out. Please try again."
          else
            buildErrorPayload query "Web search failed. Please try again later."
      | .returns none =>
          buildErrorPayload query "Web search returned no data."
      | .returns (some raw) => buildSuccessPayload query raw maxR

/-- The success branches of `_format_tavily_result` (agent_service.py
lines 38-50). -/
def formatTavilySuccess (p : TavilyPayload) : String :=
  let results := p.results
  let answerBranch : Option String :=
    match p.answer with
    | some a => if a ≠ "" then some a else none
    | none => none
  match answerBranch with
  | some a =>
      "Answer: " ++ a ++ "\n\nSources:\n" ++
        strJoinSep "\n"
          ((results.take 5).map (fun r =>
            "- " ++ r.title ++ " (" ++ r.url ++ "): " ++
              String.mk (r.content.data.take 200) ++ "..."))
  | none =>
      if results.isEmpty then "No search results found."
      else
        strJoinSep "\n"
          ((results.take 5).map (fun r =>
            "- " ++ r.title ++ " | " ++ r.url ++ "\n  " ++
              String.mk (r.content.data.take 300)))

/-- `_format_tavily_result` (agent_service.py lines 34-50): a truthy
`error` field becomes `"Search error: ..."`. -/
def formatTavilyResult (p : TavilyPayload) : String :=
  match p.error with
  | some e => if e ≠ "" then "Search error: " ++ e else formatTavilySuccess p
  | none => formatTavilySuccess p

/-- `_tavily_invoke` (agent_service.py lines 71-76): the LangChain-facing
search adapter, a total function into `String`. -/
def tavilyInvoke (st : TavilySettings) (query : String)
    (remote : TavilyRequest → TavilyOutcome) : String :=
  if pyStrip query = "" then "Error: search query cannot be empty."
  else
    formatTavilyResult
      (searchTavily st (pyStrip query) (some st.maxResults) none false remote)

/-! ## Trends adapter

`_call_mcp_tool_async` / `get_google_trends`
(backend/app/services/tools/google_trends_mcp.py lines 161-327) and the
agent-facing wrapper `_google_trends_invoke` / `_format_trends_result`
(agent_service.py lines 53-68 and 79-91). The remote endpoint is an oracle
giving the outcome of each HTTP attempt; the request arguments (tool name,
geo, full_data) are absorbed into that oracle. The session handshake and
its cache (google_trends_mcp.py lines 51-87, 216-218) are connection
plumbing that does not change which fixed error string a failing call
produces, and are projected out. -/

/-- One trend item as read by `_format_trends_result` (agent_service.py
lines 60-67) and the normalization of `get_google_trends_async`: a dict
with optional `keyword`/`name`/`volume` fields, or a bare value rendered
with `f"- {t}"`. `volume` is kept as its rendered string. -/
inductive TrendItem
  | obj (keyword name volume : Option String)
  | raw (s : String)
deriving DecidableEq, Repr

/-- The body of a 200 response to `tools/call`, after
`_parse_mcp_response_body` / `_parse_tool_result` (google_trends_mcp.py
lines 118-153, 225-240): unparseable, a JSON-RPC error with its message,
or a tool result whose normalized datum is `none` (result `None`) or the
normalized trend list (lines 317-325 always yield a list of items). -/
inductive McpBody
  | unparseable
  | rpcError (msg : String)
  | ok (data : Option (List TrendItem))
deriving DecidableEq, Repr

/-- Outcome of one HTTP attempt of `_call_mcp_tool_async`
(google_trends_mcp.py lines 197-240): a connection/timeout error (retried),
any other exception, or a response with its status and body. -/
inductive McpAttempt
  | connError (msg : String)
  | otherException (msg : String)
  | response (status : Nat) (body : McpBody)
deriving DecidableEq, Repr

/-- The MCP configuration fields the call reads (core/config.py
lines 40-44): whether `_mcp_endpoint()` is non-empty, and
`max(0, settings.mcp_max_retries)`. -/
structure McpSettings where
  urlConfigured : Bool
  maxRetries : Nat
deriving DecidableEq, Repr

/-- The `{"data": ..., "error": ...}` dict `_call_mcp_tool_async`
returns. -/
structure McpResult where
  data : Option (List TrendItem)
  error : Option String
deriving DecidableEq, Repr

/-- The attempt loop of `_call_mcp_tool_async` (google_trends_mcp.py lines
196-245): connection errors consume an attempt and continue; any other
exception, a non-200 status, an unparseable body and a JSON-RPC error each
return a fixed error string; exhausting all attempts returns the
unreachable error. `i` is the index of the next attempt, `remaining` the
attempts left out of `max_retries + 1`. -/
def mcpAttemptLoop (attempts : Nat → McpAttempt) :
    Nat → Nat → McpResult
  | _, 0 =>
      ⟨none, some "Google Trends service is unreachable. Please try again later."⟩
  | i, remaining + 1 =>
      match attempts i with
      | .connError _ => mcpAttemptLoop attempts (i + 1) remaining
      | .otherException _ =>
          ⟨none, some "Google Trends service error. Please try again later."⟩
      | .response status body =>
          if status ≠ 200 then
            ⟨none,
              some "Google Trends service is unavailable. Please try again later."⟩
          else
            match body with
            | .unparseable =>
                ⟨none, some "Invalid response from Google Trends service."⟩
            | .rpcError msg =>
                if strContains msg "401" ||
                    strContains (pyLower msg) "unauthorized" then
                  ⟨none, some "Google Trends service authentication failed."⟩
                else
                  ⟨none, some "Google Trends request failed. Please try again."⟩
            | .ok data => ⟨data, none⟩

/-- `_call_mcp_tool_async` (google_trends_mcp.py lines 161-245). -/
def callMcpTool (st : McpSettings) (attempts : Nat → McpAttempt) :
    McpResult :=
  if ¬st.urlConfigured then
    ⟨none, some "MCP URL is not configured. Set MCP_URL."⟩
  else mcpAttemptLoop attempts 0 (st.maxRetries + 1)

/-- The `{"trends": ..., "error": ...}` dict `get_google_trends`
returns. -/
structure TrendsPayload where
  trends : List TrendItem
  error : Option String
deriving DecidableEq, Repr

/-- `get_google_trends` / `get_google_trends_async` (google_trends_mcp.py
lines 253-327): pass the call error through with an empty trend list; a
`None` datum becomes the no-data error; otherwise the normalized list. -/
def getGoogleTrends (st : McpSettings) (attempts : Nat → McpAttempt) :
    TrendsPayload :=
  let out := callMcpTool st attempts
  match out.error with
  | some e => ⟨[], some e⟩
  | none =>
      match out.data with
      | none => ⟨[], some "No data from Google Trends."⟩
      | some trends => ⟨trends, none⟩

/-- One line of `_format_trends_result` (agent_service.py lines 60-67). -/
def formatTrendItem : TrendItem → String
  | .obj keyword name volume =>
      let kw := match keyword with
        | some k => k
        | none => name.getD ""
      let vol := volume.getD ""
      "- " ++ kw ++ (if vol ≠ "" then " (volume: " ++ vol ++ ")" else "")
  | .raw s => "- " ++ s

/-- The success branches of `_format_trends_result` (agent_service.py
lines 57-68). -/
def formatTrendsSuccess (p : TrendsPayload) : String :=
  if p.trends.isEmpty then "No trending terms returned."
  else strJoinSep "\n" ((p.trends.take 15).map formatTrendItem)

/-- `_format_trends_result` (agent_service.py lines 53-68): a truthy
`error` field becomes `"Trends error: ..."`. -/
def formatTrendsResult (p : TrendsPayload) : String :=
  match p.error with
  | some e => if e ≠ "" then "Trends error: " ++ e else formatTrendsSuccess p
  | none => formatTrendsSuccess p

/-- Python `s.upper()`. -/
def pyUpper (s : String) : String :=
  String.mk (s.data.map Char.toUpper)

/-- Python `s.replace(",", " ")` for the single-character pattern. -/
def replaceCommas (s : String) : String :=
  String.mk (s.data.map (fun c => if c = ',' then ' ' else c))

/-- Python `s.split()` on character lists: split on whitespace runs,
dropping empty pieces; `acc` holds the current word reversed. -/
def splitWsChars : List Char → List Char → List String
  | [], acc => if acc.isEmpty then [] else [String.mk acc.reverse]
  | c :: cs, acc =>
      if c.isWhitespace then
        (if acc.isEmpty then [] else [String.mk acc.reverse]) ++
          splitWsChars cs []
      else splitWsChars cs (c :: acc)

/-- Python `s.split()`. -/
def pySplitWs (s : String) : List String :=
  splitWsChars s.data []

/-- The region-code extraction of `_google_trends_invoke`
(agent_service.py lines 81-89): scan the uppercased, comma-stripped input
for the first two-letter alphabetic token, default `"US"`, then override
from the known-country allow-list applied to the whole input. -/
def trendsGeoOf (geoOrQuery : String) : String :=
  let raw := pyStrip (if geoOrQuery = "" then "US" else geoOrQuery)
  let rawU := pyUpper raw
  let geo0 :=
    match (pySplitWs (replaceCommas rawU)).find?
        (fun p => p.data.length == 2 && p.data.all Char.isAlpha) with
    | some p => p
    | none => "US"
  if rawU = "US" ∨ rawU = "UK" ∨ rawU = "GB" ∨ rawU = "IN" ∨ rawU = "DE" ∨
      rawU = "FR" ∨ rawU = "JP" ∨ rawU = "BR" ∨ rawU = "CA" ∨ rawU = "AU" then
    (if rawU = "UK" ∨ rawU = "GB" then "GB" else rawU)
  else geo0

/-- `_google_trends_invoke` (agent_service.py lines 79-91): the
LangChain-facing trends adapter, a total function into `String`. The
extracted geo parameterizes the remote oracle. -/
def googleTrendsInvoke (st : McpSettings) (geoOrQuery : String)
    (attempts : String → Nat → McpAttempt) : String :=
  let geo := trendsGeoOf geoOrQuery
  formatTrendsResult (getGoogleTrends st (attempts geo))

/-! ## Supporting lemmas for the streaming pipeline -/

/-- Folding events with an empty token trace neither adds parts nor
chunks. -/
theorem foldl_streamStep_no_tokens (events : List AgentEvent) (acc : StreamAcc)
    (h : tokenContents events = []) :
    (events.foldl streamStep acc).parts = acc.parts ∧
      chunkContents (events.foldl streamStep acc).emitted =
        chunkContents acc.emitted := by
  induction events generalizing acc with
  | nil => exact ⟨rfl, rfl⟩
  | cons e rest ih =>
      cases e with
      | token c => simp [tokenContents] at h
      | toolStart tool =>
          have h' : tokenContents rest = [] := by simpa [tokenContents] using h
          have := ih (streamStep acc (.toolStart tool)) h'
          simpa [streamStep, chunkContents_append, chunkContents] using this

/-! ## Claim theorems: streaming pipeline (C1, C9, C5) -/

/-- C1, counterexample: for the streaming turn whose agent stream yields
the single token `" hi "`, the concatenation of the chunk contents emitted
before `done` is `" hi "`, while the `done` event's message content is the
stripped string `"hi"`; the two differ, so the concatenation does not
equal the `done` content. -/
theorem chunk_concat_ne_done_content_at_whitespace_token :
    strConcat (chunkContents (sendMessageStreamEvents [.token " hi "] false)) =
      " hi " ∧
    doneContent (sendMessageStreamEvents [.token " hi "] false) = some "hi" ∧
    (" hi " : String) ≠ "hi" := by
  refine ⟨by decide, by decide, by decide⟩

/-- C1 (amended): for every streaming turn whose agent stream completes
without raising, the `done` event's message content equals the
whitespace-stripped concatenation of the chunk contents emitted before it,
with `"(No response)"` substituted when that stripped concatenation is
empty; when the agent stream raises, the persisted content is the fixed
fallback sentence regardless of the chunks already emitted. -/
theorem done_content_is_stripped_chunk_concat (events : List AgentEvent) :
    (doneContent (sendMessageStreamEvents events false) =
      some
        (if pyStrip
            (strConcat (chunkContents (sendMessageStreamEvents events false))) =
            "" then "(No response)"
         else
           pyStrip
             (strConcat (chunkContents (sendMessageStreamEvents events false))))) ∧
    doneContent (sendMessageStreamEvents events true) = some streamFallback := by
  constructor
  · have hinv :
        strConcat (chunkContents (events.foldl streamStep ⟨[], [], []⟩).emitted) =
          strConcat (events.foldl streamStep ⟨[], [], []⟩).parts :=
      streamStep_parts_eq_chunks events ⟨[], [], []⟩ rfl
    simp only [sendMessageStreamEvents, if_neg Bool.false_ne_true, Bool.false_eq_true,
      if_false, doneContent, List.getLast?_concat, chunkContents_append]
    have hchunkdone :
        chunkContents
            [StreamEvent.done
              (if pyStrip
                  (strConcat (events.foldl streamStep ⟨[], [], []⟩).parts) = ""
               then "(No response)"
               else
                 pyStrip
                   (strConcat (events.foldl streamStep ⟨[], [], []⟩).parts))] =
          [] := rfl
    rw [hchunkdone, List.append_nil, hinv]
  · simp only [sendMessageStreamEvents, eq_self_iff_true, if_true, doneContent,
      List.getLast?_concat]
    have : pyStrip (strConcat [streamFallback]) = streamFallback := by decide
    rw [this]
    have hne : streamFallback ≠ "" := by decide
    rw [if_neg hne]

/-- C9: every `chunk` event a streaming turn emits before its terminal
event carries a non-empty content string — empty token texts are filtered
out, and the exception-path fallback chunk is non-empty. -/
theorem stream_chunks_nonempty (events : List AgentEvent) (failed : Bool)
    (c : String) (hc : c ∈ chunkContents (sendMessageStreamEvents events failed)) :
    c ≠ "" := by
  have hbase : ∀ x ∈ chunkContents (List.foldl streamStep ⟨[], [], []⟩ events).emitted,
      x ≠ "" :=
    streamStep_chunks_nonempty events ⟨[], [], []⟩ (by intro x hx; cases hx)
  cases failed with
  | false =>
      simp only [sendMessageStreamEvents, Bool.false_eq_true, if_false,
        chunkContents_append] at hc
      rw [List.mem_append] at hc
      rcases hc with hc | hc
      · exact hbase c hc
      · cases hc
  | true =>
      have hsplit : chunkContents (sendMessageStreamEvents events true) =
          chunkContents (List.foldl streamStep ⟨[], [], []⟩ events).emitted ++
            [streamFallback] := by
        simp [sendMessageStreamEvents, chunkContents_append, chunkContents]
      rw [hsplit, List.mem_append] at hc
      rcases hc with hc | hc
      · exact hbase c hc
      · have hce : c = streamFallback := by simpa using hc
        subst hce; decide

/-- C9 witness. -/
theorem stream_chunks_nonempty_witness : ("a" : String) ≠ "" :=
  stream_chunks_nonempty [.token "a"] false "a" (by decide)

/-- C5, counterexample: a streaming call whose provider stream consists of
a tool start, a tool-call chunk, an absent chunk and an unrelated event
yields zero token events, and the caller's stream for that turn contains
no chunk events at all — there is no fallback to the blocking answer. -/
theorem stream_with_zero_tokens_exists :
    tokenContents
        (streamAgentExecEvents
          [.onToolStart "tavily_web_search",
           .onChatModelStream (some ⟨true, .str "call"⟩),
           .onChatModelStream none, .otherEvent]) = [] ∧
    sendMessageStreamEvents
        (streamAgentExecEvents
          [.onToolStart "tavily_web_search",
           .onChatModelStream (some ⟨true, .str "call"⟩),
           .onChatModelStream none, .otherEvent]) false =
      [.toolStart "tavily_web_search", .done "(No response)"] := by
  refine ⟨by decide, by decide⟩

/-- C5 (amended): the streaming runtime has no zero-token fallback — when
the provider stream would produce zero token events, the runtime emits
none, the orchestrator emits no chunk events, and the persisted `done`
content is the placeholder `"(No response)"`. -/
theorem zero_tokens_yield_placeholder (pevs : List ProviderEvent)
    (h : tokenContents (streamAgentExecEvents pevs) = []) :
    chunkContents (sendMessageStreamEvents (streamAgentExecEvents pevs) false) =
      [] ∧
    doneContent (sendMessageStreamEvents (streamAgentExecEvents pevs) false) =
      some "(No response)" := by
  obtain ⟨hparts, hchunks⟩ :=
    foldl_streamStep_no_tokens (streamAgentExecEvents pevs) ⟨[], [], []⟩ h
  constructor
  · simp only [sendMessageStreamEvents, Bool.false_eq_true, if_false,
      chunkContents_append]
    rw [hchunks]
    rfl
  · simp only [sendMessageStreamEvents, Bool.false_eq_true, if_false,
      doneContent, List.getLast?_concat]
    rw [hparts]
    rfl

/-- C5 witness. -/
theorem zero_tokens_yield_placeholder_witness :
    chunkContents (sendMessageStreamEvents (streamAgentExecEvents []) false) =
      [] ∧
    doneContent (sendMessageStreamEvents (streamAgentExecEvents []) false) =
      some "(No response)" :=
  zero_tokens_yield_placeholder [] rfl

/-! ## Supporting lemmas for the orchestrator (C2, C3) -/

/-- Looking up the freshly created conversation after the title update
finds it, carrying the new title, provided no pre-existing conversation
used the fresh id. -/
theorem find?_convUpdate (convs : List Conv) (n : Nat) (t : String)
    (hf : ∀ c ∈ convs, c.id ≠ n) :
    ((convs ++ [Conv.mk n none]).map
        (fun c : Conv =>
          if c.id == n then { c with title := some t } else c)).find?
      (fun c : Conv => c.id == n) = some (Conv.mk n (some t)) := by
  induction convs with
  | nil => simp [List.find?]
  | cons c rest ih =>
      have hc : (c.id == n) = false := by
        simpa using hf c (List.mem_cons_self c rest)
      have step :
          ((c :: rest ++ [Conv.mk n none]).map
              (fun c : Conv =>
                if c.id == n then { c with title := some t } else c)).find?
            (fun c : Conv => c.id == n) =
          ((rest ++ [Conv.mk n none]).map
              (fun c : Conv =>
                if c.id == n then { c with title := some t } else c)).find?
            (fun c : Conv => c.id == n) := by
        simp [List.find?, hc]
      rw [step]
      exact ih (fun d hd => hf d (List.mem_cons_of_mem c hd))

/-! ## Claim theorems: blocking send-message turn (C2, C3) -/

/-- C2: a valid non-empty message sent with no conversation id creates a
new conversation, persists exactly the two turn messages in order (`user`
with the stripped input, then `assistant`), and sets the conversation's
title to the first 200 characters of the stripped input, with `"..."`
appended exactly when the stripped input is longer than 200
characters. -/
theorem send_message_new_conversation
    (agent : String → List (String × String) → String) (db : Db)
    (token content : String) (htok : token ≠ "")
    (hc : pyStrip content ≠ "")
    (hfresh : ∀ c ∈ db.convs, c.id ≠ db.nextId) :
    ∃ db2 res, sendMessage agent db token content none = .ok (db2, res) ∧
      res.conversationCreated = true ∧
      res.conversationId = db.nextId ∧
      res.message.role = "assistant" ∧
      db2.msgs = db.msgs ++
        [⟨db.nextId, "user", pyStrip content⟩,
         ⟨db.nextId, "assistant", res.message.content⟩] ∧
      convGetById db2 db.nextId =
        some ⟨db.nextId, some (firstMessageTitle (pyStrip content))⟩ ∧
      firstMessageTitle (pyStrip content) =
        (if (pyStrip content).length ≤ 200 then pyStrip content
         else String.mk ((pyStrip content).data.take 200) ++ "...") := by
  have hmain : sendMessage agent db token content none =
      .ok
        (convUpdateTitle
          (Db.mk (db.convs ++ [Conv.mk db.nextId none])
            ((db.msgs ++ [StoredMsg.mk db.nextId "user" (pyStrip content)]) ++
              [StoredMsg.mk db.nextId "assistant"
                (agent (pyStrip content)
                  (historyForAgent
                    (Db.mk (db.convs ++ [Conv.mk db.nextId none])
                      (db.msgs ++
                        [StoredMsg.mk db.nextId "user" (pyStrip content)])
                      (db.nextId + 1))
                    db.nextId DEFAULT_AGENT_HISTORY_LIMIT))])
            (db.nextId + 1))
          db.nextId (firstMessageTitle (pyStrip content)),
         ⟨db.nextId,
          StoredMsg.mk db.nextId "assistant"
            (agent (pyStrip content)
              (historyForAgent
                (Db.mk (db.convs ++ [Conv.mk db.nextId none])
                  (db.msgs ++ [StoredMsg.mk db.nextId "user" (pyStrip content)])
                  (db.nextId + 1))
                db.nextId DEFAULT_AGENT_HISTORY_LIMIT)), true⟩) := by
    unfold sendMessage
    rw [if_neg htok, if_neg hc]
    rfl
  refine ⟨_, _, hmain, rfl, rfl, rfl,
    by simp [convUpdateTitle, List.append_assoc], ?_, ?_⟩
  · show convGetById _ db.nextId = _
    unfold convGetById convUpdateTitle
    exact find?_convUpdate db.convs db.nextId
      (firstMessageTitle (pyStrip content)) hfresh
  · unfold firstMessageTitle
    have hdl : (pyStrip content).length = (pyStrip content).data.length := rfl
    by_cases hlen : (pyStrip content).length ≤ 200
    · rw [if_pos hlen, if_neg (by omega : ¬200 < (pyStrip content).data.length),
        String.append_empty,
        List.take_of_length_le
          (show (pyStrip content).data.length ≤ 200 by omega)]
    · rw [if_neg hlen, if_pos (by omega : 200 < (pyStrip content).data.length)]

/-- C2 witness. -/
theorem send_message_new_conversation_witness :
    ∃ db2 res,
      sendMessage (fun _ _ => "Hi there") ⟨[], [], 0⟩ "tok" "Hello" none =
        .ok (db2, res) ∧
      res.conversationCreated = true ∧
      res.conversationId = Db.nextId ⟨[], [], 0⟩ ∧
      res.message.role = "assistant" ∧
      db2.msgs = Db.msgs ⟨[], [], 0⟩ ++
        [⟨Db.nextId ⟨[], [], 0⟩, "user", pyStrip "Hello"⟩,
         ⟨Db.nextId ⟨[], [], 0⟩, "assistant", res.message.content⟩] ∧
      convGetById db2 (Db.nextId ⟨[], [], 0⟩) =
        some ⟨Db.nextId ⟨[], [], 0⟩, some (firstMessageTitle (pyStrip "Hello"))⟩ ∧
      firstMessageTitle (pyStrip "Hello") =
        (if (pyStrip "Hello").length ≤ 200 then pyStrip "Hello"
         else String.mk ((pyStrip "Hello").data.take 200) ++ "...") :=
  send_message_new_conversation (fun _ _ => "Hi there") ⟨[], [], 0⟩ "tok" "Hello"
    (by decide) (by decide) (by intro c hc; cases hc)

/-- C3, counterexample: in a conversation that already holds 20 messages,
the history window computed after storing the inbound user message is the
oldest 20 messages and does not contain the inbound message, and an agent
probing its history through `sendMessage` observes its absence — so the
just-stored inbound message is not part of the agent's context for this
turn. -/
theorem history_window_excludes_inbound_with_20_prior :
    (("user", "new question") ∉
      historyForAgent
        (msgCreate
          (Db.mk [Conv.mk 0 none]
            (List.replicate 20 (StoredMsg.mk 0 "user" "old")) 1)
          0 "user" "new question").1
        0 DEFAULT_AGENT_HISTORY_LIMIT) ∧
    sentAssistantContent
      (sendMessage
        (fun _ h => if ("user", "new question") ∈ h then "IN" else "OUT")
        (Db.mk [Conv.mk 0 none]
          (List.replicate 20 (StoredMsg.mk 0 "user" "old")) 1)
        "tok" "new question" (some 0)) = some "OUT" := by
  refine ⟨by decide, by decide⟩

/-- C3 (amended): for every send-message turn into an existing
conversation, the history window passed to the agent is computed after the
inbound user message is stored, is the oldest-first projection of the
conversation's messages capped at 20, and therefore contains the
just-stored inbound message exactly when the conversation held fewer than
20 prior messages; with 20 or more prior messages the window is the oldest
20 prior messages, which exclude the inbound one. -/
theorem history_window_semantics
    (agent : String → List (String × String) → String) (db : Db)
    (token content : String) (convId : Nat) (conv : Conv)
    (htok : token ≠ "") (hc : pyStrip content ≠ "")
    (hconv : convGetById db convId = some conv) :
    ∃ db2 res,
      sendMessage agent db token content (some convId) = .ok (db2, res) ∧
      res.message.content =
        agent (pyStrip content)
          (historyForAgent (msgCreate db conv.id "user" (pyStrip content)).1
            conv.id DEFAULT_AGENT_HISTORY_LIMIT) ∧
      historyForAgent (msgCreate db conv.id "user" (pyStrip content)).1
          conv.id DEFAULT_AGENT_HISTORY_LIMIT =
        (((db.msgs.filter (fun m => m.conversationId == conv.id)) ++
            [StoredMsg.mk conv.id "user" (pyStrip content)]).take 20).map
          (fun m => (m.role, m.content)) ∧
      (historyForAgent (msgCreate db conv.id "user" (pyStrip content)).1
          conv.id DEFAULT_AGENT_HISTORY_LIMIT).length ≤ 20 ∧
      ((db.msgs.filter (fun m => m.conversationId == conv.id)).length < 20 →
        ("user", pyStrip content) ∈
          historyForAgent (msgCreate db conv.id "user" (pyStrip content)).1
            conv.id DEFAULT_AGENT_HISTORY_LIMIT) ∧
      (20 ≤ (db.msgs.filter (fun m => m.conversationId == conv.id)).length →
        historyForAgent (msgCreate db conv.id "user" (pyStrip content)).1
            conv.id DEFAULT_AGENT_HISTORY_LIMIT =
          ((db.msgs.filter (fun m => m.conversationId == conv.id)).take 20).map
            (fun m => (m.role, m.content))) := by
  have hmain : sendMessage agent db token content (some convId) =
      .ok
        (Db.mk db.convs
          ((db.msgs ++ [StoredMsg.mk conv.id "user" (pyStrip content)]) ++
            [StoredMsg.mk conv.id "assistant"
              (agent (pyStrip content)
                (historyForAgent
                  (Db.mk db.convs
                    (db.msgs ++ [StoredMsg.mk conv.id "user" (pyStrip content)])
                    db.nextId)
                  conv.id DEFAULT_AGENT_HISTORY_LIMIT))])
          db.nextId,
         ⟨conv.id,
          StoredMsg.mk conv.id "assistant"
            (agent (pyStrip content)
              (historyForAgent
                (Db.mk db.convs
                  (db.msgs ++ [StoredMsg.mk conv.id "user" (pyStrip content)])
                  db.nextId)
                conv.id DEFAULT_AGENT_HISTORY_LIMIT)), false⟩) := by
    unfold sendMessage
    rw [if_neg htok, if_neg hc]
    dsimp only
    rw [hconv]
    rfl
  have hfa :
      historyForAgent (msgCreate db conv.id "user" (pyStrip content)).1
          conv.id DEFAULT_AGENT_HISTORY_LIMIT =
        (((db.msgs.filter (fun m => m.conversationId == conv.id)) ++
            [StoredMsg.mk conv.id "user" (pyStrip content)]).take 20).map
          (fun m => (m.role, m.content)) := by
    show
      ((((db.msgs ++ [StoredMsg.mk conv.id "user" (pyStrip content)]).filter
          (fun m => m.conversationId == conv.id)).drop 0).take 20).map
          (fun m => (m.role, m.content)) = _
    rw [List.drop_zero, List.filter_append]
    congr 2
    simp
  refine ⟨_, _, hmain, rfl, hfa, ?_, ?_, ?_⟩
  · rw [hfa]
    simp only [List.length_map, List.length_take]
    omega
  · intro hlt
    rw [hfa, List.take_of_length_le (by simp; omega)]
    refine List.mem_map.mpr ⟨StoredMsg.mk conv.id "user" (pyStrip content), ?_, rfl⟩
    simp
  · intro hge
    rw [hfa, List.take_append_of_le_length hge]

/-- C3 witness. -/
theorem history_window_semantics_witness :
    ∃ db2 res,
      sendMessage (fun _ _ => "ok") (Db.mk [Conv.mk 0 none] [] 1) "tok" "hello"
          (some 0) = .ok (db2, res) ∧
      res.message.content =
        (fun (_ : String) (_ : List (String × String)) => "ok") (pyStrip "hello")
          (historyForAgent
            (msgCreate (Db.mk [Conv.mk 0 none] [] 1) (Conv.mk 0 none).id "user"
              (pyStrip "hello")).1
            (Conv.mk 0 none).id DEFAULT_AGENT_HISTORY_LIMIT) ∧
      historyForAgent
          (msgCreate (Db.mk [Conv.mk 0 none] [] 1) (Conv.mk 0 none).id "user"
            (pyStrip "hello")).1
          (Conv.mk 0 none).id DEFAULT_AGENT_HISTORY_LIMIT =
        ((((Db.mk [Conv.mk 0 none] [] 1).msgs.filter
              (fun m => m.conversationId == (Conv.mk 0 none).id)) ++
            [StoredMsg.mk (Conv.mk 0 none).id "user" (pyStrip "hello")]).take
            20).map (fun m => (m.role, m.content)) ∧
      (historyForAgent
          (msgCreate (Db.mk [Conv.mk 0 none] [] 1) (Conv.mk 0 none).id "user"
            (pyStrip "hello")).1
          (Conv.mk 0 none).id DEFAULT_AGENT_HISTORY_LIMIT).length ≤ 20 ∧
      (((Db.mk [Conv.mk 0 none] [] 1).msgs.filter
            (fun m => m.conversationId == (Conv.mk 0 none).id)).length < 20 →
        ("user", pyStrip "hello") ∈
          historyForAgent
            (msgCreate (Db.mk [Conv.mk 0 none] [] 1) (Conv.mk 0 none).id "user"
              (pyStrip "hello")).1
            (Conv.mk 0 none).id DEFAULT_AGENT_HISTORY_LIMIT) ∧
      (20 ≤ ((Db.mk [Conv.mk 0 none] [] 1).msgs.filter
            (fun m => m.conversationId == (Conv.mk 0 none).id)).length →
        historyForAgent
            (msgCreate (Db.mk [Conv.mk 0 none] [] 1) (Conv.mk 0 none).id "user"
              (pyStrip "hello")).1
            (Conv.mk 0 none).id DEFAULT_AGENT_HISTORY_LIMIT =
          (((Db.mk [Conv.mk 0 none] [] 1).msgs.filter
                (fun m => m.conversationId == (Conv.mk 0 none).id)).take 20).map
            (fun m => (m.role, m.content))) :=
  history_window_semantics (fun _ _ => "ok") (Db.mk [Conv.mk 0 none] [] 1)
    "tok" "hello" 0 (Conv.mk 0 none) (by decide) (by decide) (by decide)

/-! ## Claim theorems: failure classification (C6), retry wrapper (C7),
router validation (C8), clamping (C10) -/

/-- C6, counterexample: for the exception text
`"Request timeout after 60s"`, blocking mode returns the took-too-long
sentence but streaming mode returns the generic sentence, not the
took-too-long one — so the timeout classification does not hold in either
mode. -/
theorem stream_timeout_not_classified :
    invokeAgentFailureMessage "Request timeout after 60s" =
      agentTimeoutMessage ∧
    streamAgentFailureToken "Request timeout after 60s" =
      agentGenericMessage ∧
    agentGenericMessage ≠ agentTimeoutMessage := by
  refine ⟨by decide, by decide, by decide⟩

/-- C6 (amended): a reasoning failure is surfaced as a final string/token
rather than an exception; blocking mode classifies timeout/deadline to the
took-too-long sentence, then rate/quota/429 to the busy sentence, else the
generic sentence; streaming mode classifies only rate/quota/429 to the busy
sentence and everything else — timeouts included — to the generic
sentence. -/
theorem agent_failure_classification (e : String) :
    ((strContains (pyLower e) "timeout" = true ∨
        strContains (pyLower e) "deadline" = true) →
      invokeAgentFailureMessage e = agentTimeoutMessage) ∧
    (strContains (pyLower e) "timeout" = false →
      strContains (pyLower e) "deadline" = false →
      (strContains (pyLower e) "rate" = true ∨
        strContains (pyLower e) "quota" = true ∨
        strContains (pyLower e) "429" = true) →
      invokeAgentFailureMessage e = agentBusyMessage) ∧
    (strContains (pyLower e) "rate" = false →
      strContains (pyLower e) "quota" = false →
      strContains (pyLower e) "429" = false →
      streamAgentFailureToken e = agentGenericMessage ∧
      (strContains (pyLower e) "timeout" = false →
        strContains (pyLower e) "deadline" = false →
        invokeAgentFailureMessage e = agentGenericMessage)) ∧
    ((strContains (pyLower e) "rate" = true ∨
        strContains (pyLower e) "quota" = true ∨
        strContains (pyLower e) "429" = true) →
      streamAgentFailureToken e = agentBusyMessage) := by
  refine ⟨?_, ?_, ?_, ?_⟩
  · intro h
    rcases h with h | h <;> simp [invokeAgentFailureMessage, h]
  · intro h1 h2 h3
    rcases h3 with h | h | h <;>
      simp [invokeAgentFailureMessage, h1, h2, h]
  · intro h1 h2 h3
    refine ⟨by simp [streamAgentFailureToken, h1, h2, h3], ?_⟩
    intro h4 h5
    simp [invokeAgentFailureMessage, h1, h2, h3, h4, h5]
  · intro h
    rcases h with h | h | h <;> simp [streamAgentFailureToken, h]

/-- C6 witness. -/
theorem agent_failure_classification_witness :
    invokeAgentFailureMessage "429 quota exceeded" = agentBusyMessage ∧
    streamAgentFailureToken "429 quota exceeded" = agentBusyMessage :=
  ⟨(agent_failure_classification "429 quota exceeded").2.1 (by decide)
      (by decide) (by decide),
   (agent_failure_classification "429 quota exceeded").2.2.2 (by decide)⟩

/-- C7: a transient connection fault on the first attempt of a wrapped
read followed by success on the retry yields the same result as a
fault-free call, after exactly one fixed short delay; a non-transient
fault propagates immediately with no delay; and a second consecutive
fault propagates after the single delay. -/
theorem retry_on_disconnect_behavior (T : Type) (t : T) (f g : DbFault)
    (second : CallOutcome T)
    (hf : isConnectionError f = true) (hg : isConnectionError g = false) :
    withRetryOnDisconnect (.raises f) (.ok t) = ⟨.ok t, 1⟩ ∧
    withRetryOnDisconnect (.ok t) second = ⟨.ok t, 0⟩ ∧
    (withRetryOnDisconnect (.raises f) (.ok t)).result =
      (withRetryOnDisconnect (.ok t) second).result ∧
    withRetryOnDisconnect (.raises g) second = ⟨.raises g, 0⟩ ∧
    (∀ f2 : DbFault,
      withRetryOnDisconnect (CallOutcome.raises (T := T) f) (.raises f2) =
        ⟨.raises f2, 1⟩) := by
  refine ⟨?_, ?_, ?_, ?_, ?_⟩ <;>
    simp [withRetryOnDisconnect, hf, hg]

/-- C7 witness. -/
theorem retry_on_disconnect_behavior_witness :
    withRetryOnDisconnect (CallOutcome.raises (T := Nat) .httpxConnect)
        (.ok 7) = ⟨.ok 7, 1⟩ ∧
    withRetryOnDisconnect (CallOutcome.ok (T := Nat) 7)
        (.ok 7) = ⟨.ok 7, 0⟩ ∧
    (withRetryOnDisconnect (CallOutcome.raises (T := Nat) .httpxConnect)
        (.ok 7)).result =
      (withRetryOnDisconnect (CallOutcome.ok (T := Nat) 7) (.ok 7)).result ∧
    withRetryOnDisconnect
        (CallOutcome.raises (T := Nat) (.apiError 404 "Not Found"))
        (.ok 7) = ⟨.raises (.apiError 404 "Not Found"), 0⟩ ∧
    (∀ f2 : DbFault,
      withRetryOnDisconnect (CallOutcome.raises (T := Nat) .httpxConnect)
        (.raises f2) = ⟨.raises f2, 1⟩) :=
  retry_on_disconnect_behavior Nat 7 .httpxConnect (.apiError 404 "Not Found")
    (.ok 7) (by decide) (by decide)

/-- C8: limit 0 and 101 on list-conversations, limit 0 and 201 on
list-messages, and offset -1 on both, are rejected as bad-request
validation errors; a handler result of the `error` form carries no
`PageQuery`, so by construction no storage access occurs for these
inputs. -/
theorem pagination_boundaries_rejected :
    listConversationsRoute 0 0 "tok" =
      .error (.badRequest "limit must be between 1 and 100") ∧
    listConversationsRoute 101 0 "tok" =
      .error (.badRequest "limit must be between 1 and 100") ∧
    listConversationsRoute 50 (-1) "tok" =
      .error (.badRequest "offset must be non-negative") ∧
    getMessagesRoute 0 0 "tok" =
      .error (.badRequest "limit must be between 1 and 200") ∧
    getMessagesRoute 201 0 "tok" =
      .error (.badRequest "limit must be between 1 and 200") ∧
    getMessagesRoute 100 (-1) "tok" =
      .error (.badRequest "offset must be non-negative") ∧
    listConversationsRoute 100 0 "tok" = .ok ⟨100, 0⟩ ∧
    getMessagesRoute 200 0 "tok" = .ok ⟨200, 0⟩ := by
  refine ⟨rfl, rfl, rfl, rfl, rfl, rfl, rfl, rfl⟩

/-- C10: the `max_results` value sent to the remote search call is clamped
into `[1, 20]`: below 1 it is raised to 1, above 20 it is lowered to 20,
and in-range values pass through, for every caller-supplied and configured
value. -/
theorem tavily_max_results_clamped (st : TavilySettings) (mr : Option Int) :
    1 ≤ tavilySentMaxResults st mr ∧ tavilySentMaxResults st mr ≤ 20 ∧
    (mr.getD st.maxResults < 1 → tavilySentMaxResults st mr = 1) ∧
    (20 < mr.getD st.maxResults → tavilySentMaxResults st mr = 20) ∧
    (1 ≤ mr.getD st.maxResults → mr.getD st.maxResults ≤ 20 →
      tavilySentMaxResults st mr = mr.getD st.maxResults) := by
  unfold tavilySentMaxResults
  refine ⟨?_, ?_, ?_, ?_, ?_⟩ <;> intros <;> omega

/-- C10 witness. -/
theorem tavily_max_results_clamped_witness :
    (some (0 : Int) : Option Int).getD
        (TavilySettings.mk "k" 5 "basic" true).maxResults < 1 ∧
    tavilySentMaxResults (TavilySettings.mk "k" 5 "basic" true) (some 0) = 1 :=
  ⟨by decide,
   (tavily_max_results_clamped (TavilySettings.mk "k" 5 "basic" true)
      (some 0)).2.2.1 (by decide)⟩

/-! ## Supporting lemmas for the capability adapters (C4) -/

/-- Whether the underlying `client.search` call failed: it raised, or it
returned a falsy response. -/
def tavilyCallFailed : TavilyOutcome → Bool
  | .raises _ => true
  | .returns none => true
  | .returns (some _) => false

/-- The fixed short error sentences `search_tavily` can produce. -/
def tavilyErrorSentences : List String :=
  ["Search query cannot be empty.",
   "Web search is not configured. Please set TAVILY_API_KEY.",
   "Web search dependency is not available.",
   "Web search authentication failed. Check TAVILY_API_KEY.",
   "Web search timed out. Please try again.",
   "Web search failed. Please try again later.",
   "Web search returned no data."]

/-- When every remote search call fails, `searchTavily` returns an error
payload carrying one of the fixed non-empty sentences — it never throws
and never produces a success payload. -/
theorem searchTavily_failure (st : TavilySettings) (q : String)
    (mr : Option Int) (sd : Option String) (ia : Bool)
    (remote : TavilyRequest → TavilyOutcome)
    (hfail : ∀ req, tavilyCallFailed (remote req) = true) :
    ∃ s, searchTavily st q mr sd ia remote = buildErrorPayload q s ∧
      s ≠ "" ∧ s ∈ tavilyErrorSentences := by
  unfold searchTavily
  by_cases h1 : pyStrip q = ""
  · rw [if_pos h1]
    exact ⟨_, rfl, by decide, by simp [tavilyErrorSentences]⟩
  · rw [if_neg h1]
    by_cases h2 : pyStrip st.apiKey = ""
    · rw [if_pos h2]
      exact ⟨_, rfl, by decide, by simp [tavilyErrorSentences]⟩
    · rw [if_neg h2]
      by_cases h3 : st.sdkAvailable = true
      · rw [if_neg (by simp [h3])]
        dsimp only
        split
        · split_ifs
          · exact ⟨_, rfl, by decide, by simp [tavilyErrorSentences]⟩
          · exact ⟨_, rfl, by decide, by simp [tavilyErrorSentences]⟩
          · exact ⟨_, rfl, by decide, by simp [tavilyErrorSentences]⟩
        · exact ⟨_, rfl, by decide, by simp [tavilyErrorSentences]⟩
        · rename_i raw heq
          have hf := hfail
            ⟨pyStrip q, tavilySentMaxResults st mr, tavilySentDepth st sd, ia⟩
          rw [heq] at hf
          simp [tavilyCallFailed] at hf
      · rw [if_pos (by simpa using h3)]
        exact ⟨_, rfl, by decide, by simp [tavilyErrorSentences]⟩

/-- Formatting an error payload yields the prefixed search-error string. -/
theorem formatTavilyResult_error (q s : String) (h : s ≠ "") :
    formatTavilyResult (buildErrorPayload q s) = "Search error: " ++ s := by
  unfold formatTavilyResult buildErrorPayload
  simp [h]

/-- The fixed short error sentences the trends pipeline can produce. -/
def trendsErrorSentences : List String :=
  ["MCP URL is not configured. Set MCP_URL.",
   "Google Trends service is unreachable. Please try again later.",
   "Google Trends service error. Please try again later.",
   "Google Trends service is unavailable. Please try again later.",
   "Invalid response from Google Trends service.",
   "Google Trends service authentication failed.",
   "Google Trends request failed. Please try again.",
   "No data from Google Trends."]

/-- Every error the MCP attempt loop reports is one of the fixed
non-empty sentences. -/
theorem mcpAttemptLoop_error_sentences (attempts : Nat → McpAttempt) :
    ∀ remaining i e, (mcpAttemptLoop attempts i remaining).error = some e →
      e ≠ "" ∧ e ∈ trendsErrorSentences := by
  intro remaining
  induction remaining with
  | zero =>
      intro i e he
      unfold mcpAttemptLoop at he
      simp only [Option.some.injEq] at he
      subst he
      exact ⟨by decide, by simp [trendsErrorSentences]⟩
  | succ n ih =>
      intro i e he
      unfold mcpAttemptLoop at he
      cases hA : attempts i with
      | connError msg =>
          rw [hA] at he
          exact ih (i + 1) e he
      | otherException msg =>
          rw [hA] at he
          simp only [Option.some.injEq] at he
          subst he
          exact ⟨by decide, by simp [trendsErrorSentences]⟩
      | response status body =>
          rw [hA] at he
          dsimp only at he
          by_cases hst : status ≠ 200
          · rw [if_pos hst] at he
            simp only [Option.some.injEq] at he
            subst he
            exact ⟨by decide, by simp [trendsErrorSentences]⟩
          · rw [if_neg hst] at he
            cases body with
            | unparseable =>
                simp only [Option.some.injEq] at he
                subst he
                exact ⟨by decide, by simp [trendsErrorSentences]⟩
            | rpcError msg =>
                dsimp only at he
                split_ifs at he <;>
                  (simp only [Option.some.injEq] at he; subst he;
                    exact ⟨by decide, by simp [trendsErrorSentences]⟩)
            | ok data => simp at he

/-- A failing trends fetch returns the empty-trends payload with one of
the fixed non-empty sentences. -/
theorem getGoogleTrends_failure (ms : McpSettings)
    (attempts : Nat → McpAttempt) (e : String)
    (h : (getGoogleTrends ms attempts).error = some e) :
    getGoogleTrends ms attempts = ⟨[], some e⟩ ∧ e ≠ "" ∧
      e ∈ trendsErrorSentences := by
  have hcall : ∀ e0, (callMcpTool ms attempts).error = some e0 →
      e0 ≠ "" ∧ e0 ∈ trendsErrorSentences := by
    intro e0 h0
    unfold callMcpTool at h0
    by_cases hu : ms.urlConfigured = true
    · rw [if_neg (by simp [hu])] at h0
      exact mcpAttemptLoop_error_sentences attempts (ms.maxRetries + 1) 0 e0 h0
    · rw [if_pos (by simpa using hu)] at h0
      simp only [Option.some.injEq] at h0
      subst h0
      exact ⟨by decide, by simp [trendsErrorSentences]⟩
  have hEq : getGoogleTrends ms attempts =
      (match (callMcpTool ms attempts).error with
       | some e0 => ⟨[], some e0⟩
       | none =>
          match (callMcpTool ms attempts).data with
          | none => ⟨[], some "No data from Google Trends."⟩
          | some trends => ⟨trends, none⟩) := by
    unfold getGoogleTrends
    rfl
  rcases hC : callMcpTool ms attempts with ⟨data, error⟩
  rw [hEq, hC] at h
  rw [hEq, hC]
  cases error with
  | some e0 =>
      dsimp only at h ⊢
      simp only [Option.some.injEq] at h
      subst h
      exact ⟨rfl, hcall e0 (by rw [hC])⟩
  | none =>
      cases data with
      | none =>
          dsimp only at h ⊢
          simp only [Option.some.injEq] at h
          subst h
          exact ⟨rfl, by decide, by simp [trendsErrorSentences]⟩
      | some trends =>
          dsimp only at h
          simp at h

/-! ## Claim theorem: adapters never raise (C4) -/

/-- C4: each capability adapter's invoke function is a total function into
`String`; whenever the underlying remote call fails — for a non-empty
search query, any raising or falsy-response search backend, and any trends
fetch whose pipeline reports an error (connection failures past the retry
budget, other exceptions, non-200 statuses, unparseable bodies, JSON-RPC
errors, missing configuration or missing data) — the adapter returns a
prefixed short human-readable error string drawn from a fixed set instead
of throwing. -/
theorem capability_adapters_return_error_strings
    (st : TavilySettings) (ms : McpSettings) :
    (∀ (q : String) (remote : TavilyRequest → TavilyOutcome),
      pyStrip q ≠ "" →
      (∀ req, tavilyCallFailed (remote req) = true) →
      ∃ s, tavilyInvoke st q remote = "Search error: " ++ s ∧ s ≠ "" ∧
        s ∈ tavilyErrorSentences) ∧
    (∀ (geoq e : String) (attempts : String → Nat → McpAttempt),
      (getGoogleTrends ms (attempts (trendsGeoOf geoq))).error = some e →
      googleTrendsInvoke ms geoq attempts = "Trends error: " ++ e ∧
        e ≠ "" ∧ e ∈ trendsErrorSentences) := by
  constructor
  · intro q remote hq hfail
    obtain ⟨s, hs, hne, hmem⟩ :=
      searchTavily_failure st (pyStrip q) (some st.maxResults) none false
        remote hfail
    refine ⟨s, ?_, hne, hmem⟩
    unfold tavilyInvoke
    rw [if_neg hq, hs, formatTavilyResult_error _ _ hne]
  · intro geoq e attempts hge
    obtain ⟨hpay, hne, hmem⟩ :=
      getGoogleTrends_failure ms (attempts (trendsGeoOf geoq)) e hge
    refine ⟨?_, hne, hmem⟩
    unfold googleTrendsInvoke
    dsimp only
    rw [hpay]
    unfold formatTrendsResult
    simp [hne]

/-- C4 witness. -/
theorem capability_adapters_return_error_strings_witness :
    (∃ s, tavilyInvoke (TavilySettings.mk "key" 5 "basic" true) "latest news"
        (fun _ => .raises "Read timed out") = "Search error: " ++ s ∧
        s ≠ "" ∧ s ∈ tavilyErrorSentences) ∧
    (googleTrendsInvoke (McpSettings.mk true 2) "US"
        (fun _ _ => .otherException "boom") =
      "Trends error: " ++
        "Google Trends service error. Please try again later." ∧
    ("Google Trends service error. Please try again later." : String) ≠ "" ∧
    "Google Trends service error. Please try again later." ∈
      trendsErrorSentences) :=
  ⟨(capability_adapters_return_error_strings
      (TavilySettings.mk "key" 5 "basic" true) (McpSettings.mk true 2)).1
      "latest news" (fun _ => .raises "Read timed out") (by decide)
      (fun _ => rfl),
   (capability_adapters_return_error_strings
      (TavilySettings.mk "key" 5 "basic" true) (McpSettings.mk true 2)).2
      "US" "Google Trends service error. Please try again later."
      (fun _ _ => .otherException "boom") rfl⟩

end Chatbot
